import Mathlib

/-!
Verification of the visible Chainer fragments:
`chainer/functions/math/stft.py` (the `STFT` function node) and
`tests/chainer_tests/distributions_tests/test_kldivergence.py`
(the Monte Carlo cross-check of `chainer.kl_divergence`).

The Python code is shallowly embedded: numpy dtypes become a small
structure, Python exceptions become an error type in `Except`, NaN is
modelled as `Option.none`, and floating point values are modelled by `ℚ`.
-/

namespace Chainer

/-- Python-level errors that the embedded fragments can raise. -/
inductive PyError where
  | nameError (n : String)
  | typeCheckError
  | indexError
  deriving DecidableEq, Repr

/-- A numpy dtype, reduced to the one field the code inspects
(`dtype.kind`, e.g. 'f' for floating point). -/
structure Dtype where
  kind : Char
  deriving DecidableEq, Repr

/-- The type information `check_type_forward` receives for one input:
its dtype and shape.  The code only ever reads the dtype kind. -/
structure TypeInfo where
  dtype : Dtype
  shape : List Nat
  deriving DecidableEq, Repr

/-- A host ndarray, reduced to dtype plus flat data. -/
structure NDArr where
  dtype : Dtype
  data : List ℚ
  deriving DecidableEq, Repr

namespace STFT

/-- The state an `STFT` instance carries after `__init__`.  The Python
`__init__` body is `pass`: nothing is stored on `self`, so the state has
no fields. -/
structure State where
  deriving DecidableEq, Repr

/-- `STFT.__init__(self, frame_length, hop, fft_size=None,
return_onesided=True, window=None, pad_end=0)`: the body is `pass`, so
construction accepts any six arguments (of any type) and stores nothing. -/
def init {α β γ δ ε ζ : Type} (_frame_length : α) (_hop : β)
    (_fft_size : γ) (_return_onesided : δ) (_window : ε) (_pad_end : ζ) :
    State := {}

/-- `STFT.label`: returns the string literal `'stft'`; reads no state. -/
def label (_self : State) : String := "stft"

/-- `type_check.expect(cond)`: raises a type-check error when the
condition is false. -/
def expect (b : Bool) : Except PyError Unit :=
  if b then .ok () else .error .typeCheckError

/-- `STFT.check_type_forward`:
```
type_check.expect(in_types.size() == 1)
type_check.expect(in_types[0].dtype.kind == 'f')
```
The indexing `in_types[0]` is only reached once the first expectation
(`size == 1`) has succeeded. -/
def check_type_forward (in_types : List TypeInfo) : Except PyError Unit := do
  expect (in_types.length == 1)
  match in_types with
  | t :: _ => expect (t.dtype.kind == 'f')
  | [] => .error .indexError

/-- The local names in scope inside the body of `STFT.forward(self, inputs)`. -/
def forwardScope : List String := ["self", "inputs"]

/-- Evaluating a bare Python name: a `NameError` when it is not bound in
the enclosing scope. -/
def lookupName (scope : List String) (n : String) : Except PyError String :=
  if n ∈ scope then .ok n else .error (.nameError n)

/-- `STFT.forward(self, inputs)`: its body is the single statement
`xp = cuda.get_array_module(x)`.  The name `x` is not bound, so the
argument evaluation raises `NameError` before anything is computed; were
the name bound, the body would end without a `return`, i.e. yield `None`. -/
def forward (_self : State) (_inputs : List NDArr) :
    Except PyError (Option NDArr) := do
  let _x ← lookupName forwardScope "x"
  pure none

/-- The method names the `class STFT(function_node.FunctionNode)` body
defines, in source order. -/
def methods : List String :=
  ["__init__", "label", "check_type_forward", "forward"]

end STFT

/-! ## The Monte Carlo KL cross-check (`TestKLDivergence.check_kl`) -/

/-- The slice of a Chainer distribution that `check_kl`'s Monte Carlo
estimate consumes: `sample(n)` yields `n` draws, each a row of one value
per batch element, and `log_prob` is applied elementwise; `none` models a
NaN log-density. -/
structure Distribution (α : Type) where
  sample : Nat → List (List α)
  log_prob : α → Option ℚ

/-- Elementwise float subtraction with NaN propagation: the difference is
NaN when either operand is. -/
def subNaN : Option ℚ → Option ℚ → Option ℚ
  | some a, some b => some (a - b)
  | _, _ => none

/-- Apply `log_prob` elementwise over a sampled array. -/
def mapRows {α : Type} (f : α → Option ℚ) (rows : List (List α)) :
    List (List (Option ℚ)) :=
  rows.map (fun row => row.map f)

/-- Elementwise subtraction of two arrays of the same shape. -/
def sub2d (a b : List (List (Option ℚ))) : List (List (Option ℚ)) :=
  List.zipWith (List.zipWith subNaN) a b

/-- `numpy.nanmean` over a single column: the mean of the non-NaN
entries, NaN when every entry is NaN. -/
def nanmean1 (xs : List (Option ℚ)) : Option ℚ :=
  let vs := xs.filterMap id
  if vs.length = 0 then none else some (vs.sum / vs.length)

/-- `numpy.nanmean(a, axis=0)`: one nan-mean per batch column. -/
def nanmeanAxis0 (rows : List (List (Option ℚ))) : List (Option ℚ) :=
  rows.transpose.map nanmean1

/-- The Monte Carlo estimate computed by `TestKLDivergence.check_kl`:
```
sample = dist1.sample(300000)
mc_kl = dist1.log_prob(sample).data - dist2.log_prob(sample).data
mc_kl = numpy.nanmean(mc_kl, axis=0)
```
-/
def check_kl_mc {α : Type} (dist1 dist2 : Distribution α) : List (Option ℚ) :=
  let sample := dist1.sample 300000
  nanmeanAxis0 (sub2d (mapRows dist1.log_prob sample)
    (mapRows dist2.log_prob sample))

/-- The Monte Carlo estimate as the spec words it: draw 300000 samples
from the first distribution (never from the second), evaluate the first
log-density minus the second log-density at each sample, and nan-mean the
differences over the sample axis.  Stated over the first distribution's
sampler and the two log-densities only, so that the second sampler cannot
enter. -/
def spec_mc_kl {α : Type} (draw1 : Nat → List (List α))
    (lp1 lp2 : α → Option ℚ) : List (Option ℚ) :=
  ((draw1 300000).map (fun row => row.map (fun x => subNaN (lp1 x) (lp2 x)))).transpose.map nanmean1

/-! ## The autodiff graph (`FunctionNode`/`Variable` machinery)

The engine itself is not among the visible source files; it is modelled
from the spec. -/

namespace Autodiff

/-- Modelled from the spec: the `FunctionNode`/`Variable` machinery is not
under the visible sources; an operation of the computation graph is
modelled as a differentiable scalar function together with the local
derivative its node reports during backpropagation.  Operations with
closed-form densities (e.g. a normal log-density) fit this interface like
any other node. -/
structure Op where
  f : ℝ → ℝ
  df : ℝ → ℝ
  hasDeriv : ∀ x : ℝ, HasDerivAt f (df x) x

/-- Modelled from the spec: the tracked forward computation through an
arbitrary composition of operations. -/
noncomputable def runForward (ops : List Op) (x : ℝ) : ℝ :=
  match ops with
  | [] => x
  | op :: rest => runForward rest (op.f x)

/-- Modelled from the spec: the reverse graph recorded while tracking the
forward computation: each node stores the operation applied and the value
it was applied at. -/
noncomputable def reverseGraph (ops : List Op) (x : ℝ) : List (Op × ℝ) :=
  match ops with
  | [] => []
  | op :: rest => (op, x) :: reverseGraph rest (op.f x)

/-- Modelled from the spec: the reverse-mode backward pass over a recorded
graph: starting from the output seed, each recorded local derivative is
multiplied in from the output back toward the input. -/
noncomputable def backwardPass (graph : List (Op × ℝ)) (seed : ℝ) : ℝ :=
  graph.foldr (fun node g => g * node.1.df node.2) seed

/-- Modelled from the spec: the gradient of the composite with respect to
its input, obtained by seeding the backward pass with 1. -/
noncomputable def gradient (ops : List Op) (x : ℝ) : ℝ :=
  backwardPass (reverseGraph ops x) 1

/-- Modelled from the spec: the closed-form log-density of a normal
distribution, packaged as a graph operation — gradients flow through it
like through any other node. -/
noncomputable def normalLogDensityOp (μ σ : ℝ) (hσ : σ ≠ 0) : Op where
  f := fun x =>
    -((x - μ) ^ 2) / (2 * σ ^ 2) - Real.log (σ * Real.sqrt (2 * Real.pi))
  df := fun x => -(x - μ) / σ ^ 2
  hasDeriv := by
    intro x
    have h1 : HasDerivAt (fun y : ℝ => y - μ) 1 x :=
      (hasDerivAt_id x).sub_const μ
    have h2 : HasDerivAt (fun y : ℝ => (y - μ) ^ 2)
        (2 * (x - μ) ^ 1 * 1) x := h1.pow 2
    have h3 := ((h2.neg.div_const (2 * σ ^ 2)).sub_const
      (Real.log (σ * Real.sqrt (2 * Real.pi))))
    convert h3 using 1
    field_simp
    ring

end Autodiff

end Chainer

/-! ## Theorems -/

namespace Chainer

theorem zipWith_map_same {α β : Type} (h : β → β → β) (f g : α → β) :
    ∀ l : List α, List.zipWith h (l.map f) (l.map g) =
      l.map (fun x => h (f x) (g x)) := by
  intro l
  induction l with
  | nil => rfl
  | cons a l ih => simp [List.zipWith, ih]

theorem sub2d_mapRows_same {α : Type} (f g : α → Option ℚ)
    (rows : List (List α)) :
    sub2d (mapRows f rows) (mapRows g rows) =
      rows.map (fun row => row.map (fun x => subNaN (f x) (g x))) := by
  unfold sub2d mapRows
  rw [zipWith_map_same]
  apply List.map_congr_left
  intro row _
  exact zipWith_map_same subNaN f g row

/-- C2: the Monte Carlo cross-check draws 300000 samples from `dist1`
alone, takes `dist1.log_prob` minus `dist2.log_prob` at those samples,
and nan-means the differences over axis 0; it never samples from
`dist2` (the right-hand side mentions only `dist2.log_prob`). -/
theorem check_kl_mc_spec {α : Type} (dist1 dist2 : Distribution α) :
    check_kl_mc dist1 dist2 =
      spec_mc_kl dist1.sample dist1.log_prob dist2.log_prob := by
  simp only [check_kl_mc, spec_mc_kl, nanmeanAxis0]
  rw [sub2d_mapRows_same]

/-- C4: for every instance and every input list, `STFT.forward` raises
`NameError` on the unbound name `x`; it never returns an output and no
input value reaches any computation (the result does not depend on the
inputs at all). -/
theorem forward_always_nameError (self : STFT.State) (inputs : List NDArr) :
    STFT.forward self inputs = .error (.nameError "x") := by
  rfl

/-- C3 (code bug): at a concrete well-typed floating-point input,
`STFT.forward` does not return the short-time Fourier transform; it
raises `NameError` before any computation. -/
theorem forward_concrete_nameError :
    STFT.forward {} [⟨⟨'f'⟩, [0, 0, 0, 0]⟩] = .error (.nameError "x") := by
  rfl

/-- C5 (code bug): the `STFT` class body defines a `forward` method but
no `backward` method, so only half of the `FunctionNode`
forward/backward contract is implemented (and the defined `forward`
itself raises `NameError` on every call). -/
theorem stft_forward_only :
    "forward" ∈ STFT.methods ∧ "backward" ∉ STFT.methods := by
  decide

/-- C6: `STFT.__init__` ignores all six parameters: for any two argument
tuples (of any types), construction succeeds and yields equal states, and
the `label` observation agrees on both. -/
theorem init_ignores_args {α β γ δ ε ζ α' β' γ' δ' ε' ζ' : Type}
    (a : α) (b : β) (c : γ) (d : δ) (e : ε) (f : ζ)
    (a' : α') (b' : β') (c' : γ') (d' : δ') (e' : ε') (f' : ζ') :
    STFT.init a b c d e f = STFT.init a' b' c' d' e' f' ∧
      STFT.label (STFT.init a b c d e f) =
        STFT.label (STFT.init a' b' c' d' e' f') := by
  exact ⟨rfl, rfl⟩

/-- C7: `STFT.check_type_forward` succeeds exactly on a singleton input
whose dtype kind is 'f', whatever its shape; every other arity or dtype
kind is rejected with an error. -/
theorem check_type_forward_iff (in_types : List TypeInfo) :
    STFT.check_type_forward in_types = .ok () ↔
      ∃ t, in_types = [t] ∧ t.dtype.kind = 'f' := by
  unfold STFT.check_type_forward STFT.expect
  match in_types with
  | [] => simp [Bind.bind, Except.bind]
  | [t] =>
    by_cases h : t.dtype.kind = 'f' <;> simp [h, Bind.bind, Except.bind]
  | t :: u :: rest => simp [Bind.bind, Except.bind]

/-- C9: the modelled autodiff machinery is correct: tracking the forward
computation of an arbitrary composition of operations (closed-form
density nodes included) and running the backward pass over the recorded
reverse graph yields the true derivative of the composite at the input. -/
theorem autodiff_gradient_correct (ops : List Autodiff.Op) (x : ℝ) :
    HasDerivAt (Autodiff.runForward ops) (Autodiff.gradient ops x) x := by
  induction ops generalizing x with
  | nil =>
    simpa [Autodiff.runForward, Autodiff.gradient, Autodiff.reverseGraph,
      Autodiff.backwardPass] using hasDerivAt_id x
  | cons op rest ih =>
    have h1 : HasDerivAt op.f (op.df x) x := op.hasDeriv x
    have h2 : HasDerivAt (Autodiff.runForward rest)
        (Autodiff.gradient rest (op.f x)) (op.f x) := ih (op.f x)
    have hcomp := h2.comp x h1
    have hg : Autodiff.gradient (op :: rest) x =
        Autodiff.gradient rest (op.f x) * op.df x := by
      simp [Autodiff.gradient, Autodiff.reverseGraph, Autodiff.backwardPass]
    rw [hg]
    exact hcomp

end Chainer
